import Mathlib

/-!
Verification development for the EIS bank-guarantee collection pipeline
(`src/data/collect_eis_guarantees.py` together with `src/data/eis/parser.py`,
`src/data/eis/downloader.py` and `src/data/eis/storage.py`).

The Python modules are shallowly embedded as pure Lean functions.  External
effects (the Selenium browser, the filesystem, wall-clock time) are supplied
through explicit environment records, so every per-ID or per-attachment
outcome that the real world can produce is a value of the environment; the
embedded functions follow the source control flow statement by statement.
Timestamps (`utc_now_iso`) and log output are not observable in any proved
property and are omitted from the embedded records.
-/

namespace EIS

/-- `MISSING_PAGE_PHRASE` from `src/data/eis/config.py`. -/
def MISSING_PAGE_PHRASE : String := "Запрашиваемая страница не существует"

/-- Python's `needle in haystack` substring test on strings. -/
def strContains (haystack needle : String) : Bool :=
  decide (needle.toList <:+: haystack.toList)

/-- `is_missing_page` from `src/data/eis/parser.py` (lines 40-41):
`MISSING_PAGE_PHRASE in html`. -/
def is_missing_page (html : String) : Bool :=
  strContains html MISSING_PAGE_PHRASE

/-- The whitespace class of Python `str.strip()` (ASCII part; the inputs
of this program are ASCII digits and signs once stripped). -/
def isPySpace (c : Char) : Bool :=
  c = ' ' ∨ c = '\t' ∨ c = '\n' ∨ c = '\r' ∨ c = '\x0b' ∨ c = '\x0c'

/-- Python `str.strip()`. -/
def pyStrip (s : String) : String :=
  String.mk (((s.toList.dropWhile isPySpace).reverse.dropWhile
    isPySpace).reverse)

/-- Split a character list on a separator character (the empty input yields
one empty chunk, as Python `str.split(sep)` does). -/
def splitOnChar (sep : Char) : List Char → List (List Char)
  | [] => [[]]
  | c :: rest =>
    match splitOnChar sep rest with
    | [] => [[c]]
    | line :: lines =>
      if c = sep then [] :: line :: lines else (c :: line) :: lines

/-- Model of CPython `int(s)` on an already `strip`-ped string: an optional
sign followed by at least one decimal digit; anything else raises
`ValueError`, modelled as `none`. -/
def pyParseInt (s : String) : Option Int :=
  let core (digits : List Char) (sign : Int) : Option Int :=
    if digits ≠ [] ∧ digits.all (·.isDigit) then
      some (sign * (digits.foldl (fun acc c => acc * 10 + (c.toNat - 48)) 0 : Nat))
    else none
  match s.toList with
  | '-' :: rest => core rest (-1)
  | '+' :: rest => core rest 1
  | other => core other 1

/-- Python `str.splitlines` modelled as splitting on newline characters
(the files written by this program only use `\n`). -/
def splitLines (content : String) : List String :=
  (splitOnChar '\n' content.toList).map String.mk

/-- Python `set.add`: a duplicate-free list standing for the set. -/
def setAdd (s : List Int) (n : Int) : List Int :=
  if s.contains n then s else s ++ [n]

/-- `load_processed_ids` from `src/data/eis/storage.py` (lines 49-61).
The file is `none` when it does not exist; otherwise its full text.
Blank lines are skipped; the `try: int(line) except ValueError: continue`
is the `none` branch of `pyParseInt`. -/
def load_processed_ids (file : Option String) : List Int :=
  match file with
  | none => []
  | some content =>
    (splitLines content).foldl
      (fun acc line =>
        let line := pyStrip line
        if line = "" then acc
        else
          match pyParseInt line with
          | some n => setAdd acc n
          | none => acc)
      []

/-- `next_run_id` from `src/data/eis/storage.py` (lines 83-88), with the
persisted `run_state.json` abstracted to its `last_run_id` field.  Returns
the fresh run id together with the new persisted counter. -/
def next_run_id (last_run_id : Nat) : Nat × Nat :=
  let run_id := last_run_id + 1
  (run_id, run_id)

/-- Retry-state map: the JSON object `retry_queue.json`, a Python dict from
stringified guarantee id to attempt count, as an insertion-ordered
association list. -/
abbrev RetryMap : Type := List (String × Nat)

/-- Python `d.get(k, default)` (value or `none`). -/
def dictGet (m : RetryMap) (k : String) : Option Nat :=
  match m with
  | [] => none
  | kv :: rest => if kv.1 = k then some kv.2 else dictGet rest k

/-- Python `d[k] = v`: replace in place when the key exists, append
otherwise.  (Dict keys are unique, so rewriting every binding of `k` is the
same operation.) -/
def dictSet (m : RetryMap) (k : String) (v : Nat) : RetryMap :=
  if (dictGet m k).isSome then
    m.map (fun kv => if kv.1 = k then (k, v) else kv)
  else m ++ [(k, v)]

/-- Python `d.pop(k, None)`.  (Dict keys are unique, so dropping every
binding of `k` is the same operation.) -/
def dictPop (m : RetryMap) (k : String) : RetryMap :=
  match m with
  | [] => []
  | kv :: rest => if kv.1 = k then dictPop rest k else kv :: dictPop rest k

/-- Python `pathlib.PurePath(name).suffix` on a plain file name: the part of
the final path component from its last dot, empty when the last dot is the
first character or there is no dot or it would be the whole of a trailing
position. -/
def pathSuffix (name : String) : String :=
  let cs := (splitOnChar '/' name.toList).getLastD []
  match (cs.reverse.takeWhile (· ≠ '.')).length with
  | 0 => ""   -- name ends in '.'
  | k =>
    if k < cs.length ∧ 0 < cs.length - (k + 1) then
      String.mk (cs.drop (cs.length - (k + 1)))
    else ""

/-- Model of `mimetypes.guess_type(name)[0] or ""`: the stdlib extension
table restricted to the extensions this pipeline encounters. -/
def guessMime (name : String) : String :=
  match pathSuffix name with
  | ".pdf" => "application/pdf"
  | ".zip" => "application/zip"
  | ".doc" => "application/msword"
  | ".xml" => "text/xml"
  | ".html" => "text/html"
  | ".txt" => "text/plain"
  | _ => ""

/-- One attachment dict produced by `parse_document_info`
(`src/data/eis/parser.py` lines 282-289). -/
structure Attachment where
  download_url : String
  original_filename : String
  document_index : Nat
  document_number : String
deriving DecidableEq

/-- One row of the files table (`FileRecord` in the spec), exactly the dict
shape appended by `download_attachments` / `_offline_files_rows`. -/
structure FileRow where
  run_id : Nat
  id : Int
  file_index : Nat
  stored_filename : String
  stored_path : String
  original_filename : String
  download_url : String
  document_index : Nat
  document_number : String
  page_count : Nat
  mime_type : String
  download_status : String
  sha256 : String
deriving DecidableEq

/-- What the external world (filesystem, browser, hash, pypdf) does for one
attachment of `download_attachments`.  Every field corresponds to one
effectful call in the source. -/
structure AttachmentEnv where
  /-- `stored_path.exists()` at the skip check (line 221). -/
  storedExists : Bool
  /-- `pdf_page_count(stored_path)` when the skip branch recomputes it. -/
  existingPageCount : Nat
  /-- `sha256_file(stored_path)` when the skip branch recomputes it. -/
  existingSha : String
  /-- result of `_detect_download_error` right after `_open_download`
  (line 243); `""` means no immediate server-side error. -/
  immediateError : String
  /-- first component of `_wait_for_download_result` (line 264): the name of
  the completed file in the download directory, or `none`. -/
  waitDownloadedName : Option String
  /-- second component of `_wait_for_download_result`: the failure code. -/
  waitError : String
  /-- `not stored_path.exists() or stored_path.stat().st_size == 0` after
  `shutil.move` (line 304). -/
  storedMissingAfterMove : Bool
  /-- `pdf_page_count(stored_path)` on the moved file. -/
  movedPageCount : Nat
  /-- `sha256_file(stored_path)` on the moved file. -/
  movedSha : String

/-- The body of the `for index, item in enumerate(attachments, start=1)` loop
of `download_attachments` (`src/data/eis/downloader.py` lines 211-341) for a
single attachment: every branch of the source appends exactly the dict
reproduced here. -/
def downloadOne (force : Bool) (run_id : Nat) (guarantee_id : Int)
    (index : Nat) (item : Attachment) (env : AttachmentEnv) : FileRow :=
  let original_name := pyStrip item.original_filename
  let download_url := pyStrip item.download_url
  let suffix := if original_name ≠ "" then pathSuffix original_name else ""
  let stored_filename := toString guarantee_id ++ "_" ++ toString index ++ suffix
  if env.storedExists ∧ ¬force then
    { run_id, id := guarantee_id, file_index := index, stored_filename,
      stored_path := stored_filename, original_filename := original_name,
      download_url, document_index := item.document_index,
      document_number := item.document_number,
      page_count := env.existingPageCount,
      mime_type := guessMime stored_filename,
      download_status := "SKIPPED_EXISTS", sha256 := env.existingSha }
  else if env.immediateError ≠ "" then
    { run_id, id := guarantee_id, file_index := index, stored_filename := "",
      stored_path := "", original_filename := original_name, download_url,
      document_index := item.document_index,
      document_number := item.document_number, page_count := 0,
      mime_type := "", download_status := env.immediateError, sha256 := "" }
  else
    match env.waitDownloadedName with
    | none =>
      { run_id, id := guarantee_id, file_index := index,
        stored_filename := "", stored_path := "",
        original_filename := original_name, download_url,
        document_index := item.document_index,
        document_number := item.document_number, page_count := 0,
        mime_type := "",
        download_status := if env.waitError ≠ "" then env.waitError
                           else "FAILED_TIMEOUT",
        sha256 := "" }
    | some downloadedName =>
      let stored_filename :=
        if suffix = "" ∧ pathSuffix downloadedName ≠ "" then
          toString guarantee_id ++ "_" ++ toString index
            ++ pathSuffix downloadedName
        else stored_filename
      if env.storedMissingAfterMove then
        { run_id, id := guarantee_id, file_index := index,
          stored_filename := "", stored_path := "",
          original_filename := original_name, download_url,
          document_index := item.document_index,
          document_number := item.document_number, page_count := 0,
          mime_type := "", download_status := "FAILED_MISSING",
          sha256 := "" }
      else
        { run_id, id := guarantee_id, file_index := index, stored_filename,
          stored_path := stored_filename,
          original_filename := original_name, download_url,
          document_index := item.document_index,
          document_number := item.document_number,
          page_count := env.movedPageCount,
          mime_type := guessMime stored_filename,
          download_status := "DOWNLOADED", sha256 := env.movedSha }

/-- The enumeration loop of `download_attachments`, carrying the 1-based
index; the per-attachment environment is keyed by that index. -/
def downloadAll (force : Bool) (run_id : Nat) (guarantee_id : Int)
    (env : Nat → AttachmentEnv) (index : Nat) :
    List Attachment → List FileRow
  | [] => []
  | item :: rest =>
    downloadOne force run_id guarantee_id index item (env index)
      :: downloadAll force run_id guarantee_id env (index + 1) rest

/-- `download_attachments` from `src/data/eis/downloader.py` (lines
196-343): results of the enumerate-from-1 loop.  `stored_path` is modelled
relative to the per-id directory, which adds a fixed prefix to every stored
path and is not observable in any claim. -/
def download_attachments (force : Bool) (run_id : Nat) (guarantee_id : Int)
    (attachments : List Attachment) (env : Nat → AttachmentEnv) :
    List FileRow :=
  downloadAll force run_id guarantee_id env 1 attachments

/-- A file visible in the worker's download directory at some poll tick. -/
structure FileInfo where
  name : String
  size : Nat
  mtime : Nat
deriving DecidableEq

/-- One entry of the `progress` dict of `_wait_for_download_result`:
`{"size": ..., "last_change": ...}`.  `size` is an `Int` because the source
initialises it to the sentinel `-1`. -/
structure PEntry where
  size : Int
  last_change : Nat
deriving DecidableEq

/-- The external world of the completion protocol.  Time is discretised to
the poll interval (`time.sleep(1)`): tick `t` is the iteration entered `t`
seconds after the call.  `listing t` is what `download_dir.iterdir()` shows
(files only) and `errorAt t` the result of `_detect_download_error` at that
tick (`""` = no error marker). -/
structure WaitEnv where
  listing : Nat → List FileInfo
  errorAt : Nat → String

/-- `path.name.endswith(".crdownload")`. -/
def isCrdownload (name : String) : Bool :=
  ".crdownload".toList <:+ name.toList

/-- The per-tick `progress` update loop of `_wait_for_download_result`
(lines 167-173): a file's entry is rewritten with the current time exactly
when its observed size changed (new files always change from the `-1`
sentinel). -/
def updateProgress (t : Nat) (files : List FileInfo)
    (prog : String → Option PEntry) : String → Option PEntry :=
  files.foldl
    (fun prog f =>
      let entry := (prog f.name).getD ⟨-1, t⟩
      if (f.size : Int) ≠ entry.size then
        fun x => if x = f.name then some ⟨(f.size : Int), t⟩ else prog x
      else prog)
    prog

/-- Python `max(files, key=lambda p: p.stat().st_mtime)`: first element with
the maximal key. -/
def maxByMtime : List FileInfo → Option FileInfo
  | [] => none
  | f :: rest => some (rest.foldl (fun best g => if best.mtime < g.mtime then g else best) f)

/-- Outcome of `_wait_for_download_result`, with the unlinked stalled file
recorded so that its deletion is observable. -/
inductive WaitOutcome where
  | found (name : String)          -- `return latest, ""`
  | errorDetected (code : String)  -- `return None, error_status`
  | stalled (deletedName : String) -- unlink + `return None, "FAILED_STALLED"`
  | timedOut                       -- `return None, "FAILED_TIMEOUT"`
deriving DecidableEq

/-- The `while time.time() < deadline` loop of `_wait_for_download_result`
(`src/data/eis/downloader.py` lines 157-193).  `fuel` is the number of poll
ticks still inside the deadline (`timeout` at the call), `t` the current
tick. -/
def waitLoop (env : WaitEnv) (before : List String)
    (stable_seconds stall_seconds : Nat) (prog : String → Option PEntry)
    (t : Nat) : Nat → WaitOutcome
  | 0 => .timedOut
  | fuel + 1 =>
    if env.errorAt t ≠ "" then .errorDetected (env.errorAt t)
    else
      let new_files := (env.listing t).filter (fun f => ¬ before.contains f.name)
      let completed := new_files.filter (fun f => ¬ isCrdownload f.name)
      let in_progress := new_files.filter (fun f => isCrdownload f.name)
      let prog := updateProgress t new_files prog
      let doneNow : Option WaitOutcome :=
        match maxByMtime completed with
        | some latest =>
          let lc := ((prog latest.name).map PEntry.last_change).getD t
          if stable_seconds ≤ t - lc then some (.found latest.name) else none
        | none => none
      match doneNow with
      | some r => r
      | none =>
        let stalledNow : Option WaitOutcome :=
          match maxByMtime in_progress with
          | some latest_cr =>
            let lc := ((prog latest_cr.name).map PEntry.last_change).getD t
            if stall_seconds ≤ t - lc then some (.stalled latest_cr.name)
            else none
          | none => none
        match stalledNow with
        | some r => r
        | none => waitLoop env before stable_seconds stall_seconds prog (t + 1) fuel

/-- `_wait_for_download_result` (`src/data/eis/downloader.py` lines
146-193), with time discretised to the 1-second poll interval, so the
deadline admits exactly `timeout` loop iterations. -/
def wait_for_download_result (env : WaitEnv) (before : List String)
    (timeout stable_seconds stall_seconds : Nat) : WaitOutcome :=
  waitLoop env before stable_seconds stall_seconds (fun _ => none) 0 timeout

/-- Terminal status of one processed guarantee id
(`status` in `_process_ids`). -/
inductive Status where
  | OK
  | MISSING
  | ERROR
  | PARTIAL
  | TIMEOUT
deriving DecidableEq

/-- A Python exception escaping the per-id `try` body of `_process_ids`:
`ProcessingTimeout` (raised by `_ensure_time_left` or the `SIGALRM` handler)
or any other exception, carrying `str(exc)`. -/
inductive Exc where
  | procTimeout (msg : String)
  | other (msg : String)
deriving DecidableEq

/-- One row of the attributes table, the dict shape of `_attributes_rows`
and `_document_metadata_rows` in `src/data/collect_eis_guarantees.py`. -/
structure AttrRow where
  run_id : Nat
  id : Int
  /-- the `section` key of the row dict (`section` is a Lean keyword). -/
  sectionName : String
  field_name : String
  field_value : String
  document_index : Option Nat := none
  document_number : String := ""
deriving DecidableEq

/-- One document-metadata dict from `parse_document_info`
(`src/data/eis/parser.py` lines 222-244). -/
structure MetaItem where
  field_name : String
  field_value : String
  document_index : Nat
  document_number : String
deriving DecidableEq

/-- `DOCUMENT_META_SECTION` from `src/data/eis/config.py`. -/
def DOCUMENT_META_SECTION : String :=
  "Документы: Информация о банковской гарантии"

/-- `GENERAL_INFO_URL.format(id=guarantee_id)` (`src/data/eis/config.py`). -/
def generalInfoUrl (gid : Int) : String :=
  "https://zakupki.gov.ru/epz/bankguarantee/guaranteeCard/generalInformation.html?guaranteeInfoId="
    ++ toString gid

/-- `DOCUMENTS_URL.format(id=guarantee_id)` (`src/data/eis/config.py`). -/
def documentsUrl (gid : Int) : String :=
  "https://zakupki.gov.ru/epz/bankguarantee/guaranteeCard/document-info.html?guaranteeInfoId="
    ++ toString gid

/-- `_attributes_rows` (`src/data/collect_eis_guarantees.py` lines 440-455);
the `sections` mapping keeps Python dict insertion order as a list. -/
def attributesRows (run_id : Nat) (gid : Int)
    (sections : List (String × List (String × String))) : List AttrRow :=
  (sections.map (fun s =>
    s.2.map (fun fv =>
      ({ run_id, id := gid, sectionName := s.1, field_name := fv.1,
         field_value := fv.2 } : AttrRow)))).flatten

/-- `_document_metadata_rows` (`src/data/collect_eis_guarantees.py` lines
458-474). -/
def documentMetadataRows (run_id : Nat) (gid : Int) (meta : List MetaItem) :
    List AttrRow :=
  meta.map (fun item =>
    { run_id, id := gid, sectionName := DOCUMENT_META_SECTION,
      field_name := item.field_name, field_value := item.field_value,
      document_index := some item.document_index,
      document_number := item.document_number })

/-- One row of `_offline_files_rows` (`src/data/collect_eis_guarantees.py`
lines 477-504). -/
def offlineFileRow (run_id : Nat) (gid : Int) (index : Nat)
    (item : Attachment) : FileRow :=
  let original := pyStrip item.original_filename
  let suffix := if original ≠ "" then pathSuffix original else ""
  let stored_filename := toString gid ++ "_" ++ toString index ++ suffix
  { run_id, id := gid, file_index := index, stored_filename,
    stored_path := stored_filename, original_filename := original,
    download_url := item.download_url, document_index := item.document_index,
    document_number := item.document_number, page_count := 0,
    mime_type := guessMime stored_filename,
    download_status := "SKIPPED_OFFLINE", sha256 := "" }

/-- The `enumerate(attachments, start=1)` loop of `_offline_files_rows`. -/
def offlineFilesRowsAux (run_id : Nat) (gid : Int) (index : Nat) :
    List Attachment → List FileRow
  | [] => []
  | item :: rest =>
    offlineFileRow run_id gid index item
      :: offlineFilesRowsAux run_id gid (index + 1) rest

/-- `_offline_files_rows` (`src/data/collect_eis_guarantees.py`
lines 477-504). -/
def offlineFilesRows (run_id : Nat) (gid : Int)
    (attachments : List Attachment) : List FileRow :=
  offlineFilesRowsAux run_id gid 1 attachments

/-- The configuration surface of `_process_ids` (`argparse` namespace),
restricted to the fields the embedded control flow reads. -/
structure Args where
  offlineMode : Bool        -- `args.mode == "offline"`
  force : Bool
  save_html : Bool
  save_html_first_n : Nat
  skip_retries : Bool
  max_retries : Nat
  per_id_timeout : Nat
  max_ids : Option Nat

/-- External-world outcomes for processing one guarantee id inside the `try`
body of `_process_ids`.  Each field is one effectful program point of the
source; a `.error` value is the exception that program point raises
(`ProcessingTimeout` covers both the cooperative `_ensure_time_left` checks
and the `SIGALRM` alarm, which can fire at any of these points). -/
structure IdEnv where
  /-- offline: `_load_sample_html(id, "generalInformation") or ""`. -/
  loadGeneralSample : Except Exc String
  /-- offline: `_load_sample_html(id, "document-info") or ""`. -/
  loadDocumentsSample : Except Exc String
  /-- live: `clean_download_dir`; `driver.get(general_url)`;
  `wait_for_ready`; `driver.page_source or ""` (lines 202-206). -/
  fetchGeneral : Except Exc String
  /-- live: `wait_for_any_selector` on the general page (lines 210-214). -/
  waitGeneralSelectors : Except Exc Unit
  /-- live: `driver.get(documents_url)`; `wait_for_ready`;
  `driver.page_source or ""` (lines 220-223). -/
  fetchDocuments : Except Exc String
  /-- live: `wait_for_any_selector` on the documents page (lines 228-232). -/
  waitDocumentsSelectors : Except Exc Unit
  /-- `parse_general_info(html)`: `(sections, warnings)`. -/
  parseGeneral : String →
    Except Exc (List (String × List (String × String)) × List String)
  /-- `parse_document_info(html)`: `(attachments, doc_meta, warnings)`. -/
  parseDocInfo : String →
    Except Exc (List Attachment × List MetaItem × List String)
  /-- live: the `download_attachments(...)` call (lines 238-248). -/
  runDownload : List Attachment → Except Exc (List FileRow)
  /-- the `save_html_snapshot` writes (lines 266-271). -/
  saveSnapshots : Except Exc Unit
  /-- the emission and locked bookkeeping block (lines 321-362): the three
  `ParquetBatchWriter.add` calls (which flush parquet files to disk at the
  batch threshold), `update_attribute_union`, `append_processed_id`, and
  the checkpoint `save_json`.  This block sits AFTER the `except` handlers
  of lines 274-304 — the enclosing `try` of line 142 has only a `finally`
  — so an exception here is NOT caught. -/
  persist : Except Exc Unit

/-- The mutable locals of one iteration of the per-id loop of
`_process_ids` (lines 150-157), plus the worker-level `save_html_count`
and a `fetched_documents` observation flag recording whether the
secondary-page fetch (live `driver.get(documents_url)` / offline
document-info sample load) was reached. -/
structure St where
  status : Status := .OK
  warnings : List String := []
  error_message : String := ""
  attributes_rows : List AttrRow := []
  files_rows : List FileRow := []
  attachments : List Attachment := []
  general_html : String := ""
  documents_html : String := ""
  fetched_documents : Bool := false
  save_html_count : Nat := 0
deriving DecidableEq

/-- Sequencing inside the `try` body: an exception short-circuits to the
handler, keeping the locals mutated so far. -/
def stepThen (r : St × Option Exc) (k : St → St × Option Exc) :
    St × Option Exc :=
  match r with
  | (st, some e) => (st, some e)
  | (st, none) => k st

/-- Offline primary-page phase (`src/data/collect_eis_guarantees.py` lines
164-176). -/
def offlineGeneralPhase (run_id : Nat) (gid : Int) (env : IdEnv) (st0 : St) :
    St × Option Exc :=
  match env.loadGeneralSample with
  | .error e => (st0, some e)
  | .ok ghtml =>
    let st := { st0 with general_html := ghtml }
    if ghtml = "" then
      ({ st with
         status := .ERROR,
         error_message := "Missing offline generalInformation HTML",
         warnings := st.warnings ++ ["Missing offline generalInformation HTML"] },
       none)
    else if is_missing_page ghtml then
      ({ st with status := .MISSING }, none)
    else
      match env.parseGeneral ghtml with
      | .error e => (st, some e)
      | .ok (sections, parse_warnings) =>
        ({ st with
           warnings := st.warnings ++ parse_warnings,
           attributes_rows := attributesRows run_id gid sections }, none)

/-- Offline secondary-page phase (`src/data/collect_eis_guarantees.py` lines
178-199), entered only when the status is not `MISSING`. -/
def offlineDocsPhase (run_id : Nat) (gid : Int) (env : IdEnv) (st : St) :
    St × Option Exc :=
  if st.status ≠ .MISSING then
    match env.loadDocumentsSample with
    | .error e => (st, some e)
    | .ok dhtml =>
      let st := { st with documents_html := dhtml, fetched_documents := true }
      if dhtml ≠ "" then
        if is_missing_page dhtml then
          ({ st with
             status := if st.status = .OK then .PARTIAL else st.status,
             warnings := st.warnings ++ ["Document page missing"] }, none)
        else
          match env.parseDocInfo dhtml with
          | .error e => (st, some e)
          | .ok (attachments, doc_meta, parse_warnings) =>
            ({ st with
               warnings := st.warnings ++ parse_warnings,
               files_rows := offlineFilesRows run_id gid attachments,
               attributes_rows := st.attributes_rows
                 ++ documentMetadataRows run_id gid doc_meta,
               attachments := attachments }, none)
      else
        ({ st with
           status := if st.status = .OK then .PARTIAL else st.status,
           warnings := st.warnings ++ ["Missing offline document-info HTML"] },
         none)
  else (st, none)

/-- Live primary-page phase (`src/data/collect_eis_guarantees.py` lines
202-217). -/
def liveGeneralPhase (run_id : Nat) (gid : Int) (env : IdEnv) (st0 : St) :
    St × Option Exc :=
  match env.fetchGeneral with
  | .error e => (st0, some e)
  | .ok ghtml =>
    let st := { st0 with general_html := ghtml }
    if is_missing_page ghtml then
      ({ st with status := .MISSING }, none)
    else
      match env.waitGeneralSelectors with
      | .error e => (st, some e)
      | .ok _ =>
        match env.parseGeneral ghtml with
        | .error e => (st, some e)
        | .ok (sections, parse_warnings) =>
          ({ st with
             warnings := st.warnings ++ parse_warnings,
             attributes_rows := attributesRows run_id gid sections }, none)

/-- Live secondary-page phase (`src/data/collect_eis_guarantees.py` lines
219-258), entered only when the status is not `MISSING`. -/
def liveDocsPhase (run_id : Nat) (gid : Int) (env : IdEnv) (st : St) :
    St × Option Exc :=
  if st.status ≠ .MISSING then
    match env.fetchDocuments with
    | .error e => (st, some e)
    | .ok dhtml =>
      let st := { st with documents_html := dhtml, fetched_documents := true }
      if is_missing_page dhtml then
        ({ st with
           status := if st.status = .OK then .PARTIAL else st.status,
           warnings := st.warnings ++ ["Document page missing"] }, none)
      else
        match env.waitDocumentsSelectors with
        | .error e => (st, some e)
        | .ok _ =>
          match env.parseDocInfo dhtml with
          | .error e => (st, some e)
          | .ok (attachments, doc_meta, parse_warnings) =>
            let st := { st with
              warnings := st.warnings ++ parse_warnings,
              attachments := attachments }
            match
              (if attachments ≠ [] then env.runDownload attachments
               else .ok []) with
            | .error e => (st, some e)
            | .ok files_rows =>
              let st := { st with
                files_rows := files_rows,
                attributes_rows := st.attributes_rows
                  ++ documentMetadataRows run_id gid doc_meta }
              if attachments ≠ [] ∧ files_rows = [] then
                ({ st with
                   status := .PARTIAL,
                   warnings := st.warnings
                     ++ ["Attachments listed but no file rows created"] },
                 none)
              else (st, none)
  else (st, none)

/-- HTML snapshot phase (`src/data/collect_eis_guarantees.py` lines
260-272).  The `save_html_snapshot` file writes execute — and hence can
raise — only when there is something to save. -/
def snapshotPhase (a : Args) (env : IdEnv) (st : St) : St × Option Exc :=
  if a.save_html ∨ st.save_html_count < a.save_html_first_n ∨
      st.status = .ERROR ∨ st.status = .MISSING ∨ st.status = .PARTIAL ∨
      st.status = .TIMEOUT then
    if st.general_html ≠ "" ∨ st.documents_html ≠ "" then
      match env.saveSnapshots with
      | .error e => (st, some e)
      | .ok _ => ({ st with save_html_count := st.save_html_count + 1 }, none)
    else ({ st with save_html_count := st.save_html_count + 1 }, none)
  else (st, none)

/-- The whole `try` body of the per-id loop (`src/data/collect_eis_guarantees.py`
lines 162-272): mode branch, then snapshot phase. -/
def tryBody (a : Args) (run_id : Nat) (gid : Int) (env : IdEnv) (st0 : St) :
    St × Option Exc :=
  if a.offlineMode then
    stepThen (offlineGeneralPhase run_id gid env st0) (fun st =>
      stepThen (offlineDocsPhase run_id gid env st) (fun st =>
        snapshotPhase a env st))
  else
    stepThen (liveGeneralPhase run_id gid env st0) (fun st =>
      stepThen (liveDocsPhase run_id gid env st) (fun st =>
        snapshotPhase a env st))

/-- `"Timeout after {args.per_id_timeout}s"` (line 276). -/
def timeoutMessage (seconds : Nat) : String :=
  "Timeout after " ++ toString seconds ++ "s"

/-- The two `except` handlers of the per-id loop
(`src/data/collect_eis_guarantees.py` lines 274-304); the driver-restart
side effects do not touch the locals. -/
def applyExcHandler (a : Args) (r : St × Option Exc) : St :=
  match r with
  | (st, none) => st
  | (st, some (.procTimeout msg)) =>
    { st with
      status := .TIMEOUT,
      error_message := timeoutMessage a.per_id_timeout,
      warnings := st.warnings ++ [msg] }
  | (st, some (.other msg)) =>
    { st with status := .ERROR, error_message := msg }

/-- `str(row.get("download_status", "")).startswith("FAILED")` (line 310). -/
def isFailedRow (row : FileRow) : Bool :=
  "FAILED".toList.isPrefixOf row.download_status.toList

/-- `f"Attachment failures: {len(failed)}/{len(files_rows)}"` (line 317). -/
def attachmentFailuresMessage (failed total : Nat) : String :=
  "Attachment failures: " ++ toString failed ++ "/" ++ toString total

/-- The failed-attachment reclassification
(`src/data/collect_eis_guarantees.py` lines 306-317). -/
def classifyFilesRows (st : St) : St :=
  if st.files_rows ≠ [] then
    let failed := st.files_rows.filter isFailedRow
    if failed ≠ [] then
      let st :=
        if failed.length = st.files_rows.length then
          { st with status := .ERROR }
        else if st.status = .OK then { st with status := .PARTIAL }
        else st
      { st with warnings := st.warnings
          ++ [attachmentFailuresMessage (st.files_rows.filter isFailedRow).length
                st.files_rows.length] }
    else st
  else st

/-- `if status == "OK" and error_message: status = "PARTIAL"` (lines
318-319). -/
def okErrorDowngrade (st : St) : St :=
  if st.status = .OK ∧ st.error_message ≠ "" then
    { st with status := .PARTIAL }
  else st

/-- Everything the per-id loop computes for one id before emitting rows:
`try` body, exception handlers, failed-files reclassification and the final
OK-with-error downgrade (`src/data/collect_eis_guarantees.py` lines
162-319). -/
def runPipeline (a : Args) (run_id : Nat) (gid : Int) (env : IdEnv)
    (save_html_count : Nat) : St :=
  okErrorDowngrade (classifyFilesRows (applyExcHandler a
    (tryBody a run_id gid env { save_html_count })))

/-- One row of the guarantees table (`_build_guarantee_row`,
`src/data/collect_eis_guarantees.py` lines 419-437); `fetched_at` is a
wall-clock timestamp and is omitted, `warnings` is kept as the list that the
source JSON-serialises. -/
structure GuaranteeRow where
  run_id : Nat
  id : Int
  status : Status
  general_url : String
  documents_url : String
  warnings : List String
  error : String
deriving DecidableEq

/-- The `stats` dict of `_process_ids` (line 104). -/
structure Stats where
  cntOK : Nat := 0
  cntMISSING : Nat := 0
  cntERROR : Nat := 0
  cntPARTIAL : Nat := 0
  cntTIMEOUT : Nat := 0
  cntFILES : Nat := 0
deriving DecidableEq

/-- `stats[status] = stats.get(status, 0) + 1` and
`stats["FILES"] += len(files_rows)` (lines 342-343). -/
def bumpStats (s : Stats) (status : Status) (nfiles : Nat) : Stats :=
  let s :=
    match status with
    | .OK => { s with cntOK := s.cntOK + 1 }
    | .MISSING => { s with cntMISSING := s.cntMISSING + 1 }
    | .ERROR => { s with cntERROR := s.cntERROR + 1 }
    | .PARTIAL => { s with cntPARTIAL := s.cntPARTIAL + 1 }
    | .TIMEOUT => { s with cntTIMEOUT := s.cntTIMEOUT + 1 }
  { s with cntFILES := s.cntFILES + nfiles }

/-- The checkpoint file content (lines 354-362); `updated_at` is a
wall-clock timestamp and is omitted. -/
structure Checkpoint where
  run_id : Nat
  last_processed_id : Int
  stats : Stats
deriving DecidableEq

/-- The retry-state update of the critical section
(`src/data/collect_eis_guarantees.py` lines 345-352). -/
def updateRetry (retry : RetryMap) (gid : Int) (status : Status)
    (max_retries : Nat) : RetryMap :=
  if status = .ERROR ∨ status = .PARTIAL ∨ status = .TIMEOUT then
    let attempts := (dictGet retry (toString gid)).getD 0 + 1
    if attempts < max_retries then dictSet retry (toString gid) attempts
    else dictPop retry (toString gid)
  else dictPop retry (toString gid)

/-- Worker-visible mutable state of `_process_ids`: the shared run state
(processed-id set, retry map, checkpoint), the durable append-only
processed-id log, the worker's snapshot counter, and the rows handed to the
three `ParquetBatchWriter`s (modelled as the full emitted row lists; the
batching into parquet files is not observable in any claim). -/
structure WorkerState where
  processed : List Int
  retry : RetryMap
  appended_log : List Int
  checkpoint : Option Checkpoint
  stats : Stats
  save_html_count : Nat
  guarantees : List GuaranteeRow
  attributes : List AttrRow
  files : List FileRow
deriving DecidableEq

/-- Processing of one non-skipped guarantee id: the whole loop body of
`_process_ids` from line 148 (URL construction) to line 362 (checkpoint
write): pipeline, row emission, and the locked state update.  This is the
state the emission/persist block computes when it succeeds; the block's
uncaught fallibility is carried by `processOneExc` below. -/
def processRecord (a : Args) (run_id : Nat) (gid : Int) (env : IdEnv)
    (ws : WorkerState) : WorkerState :=
  let st := runPipeline a run_id gid env ws.save_html_count
  let row : GuaranteeRow :=
    { run_id, id := gid, status := st.status,
      general_url := generalInfoUrl gid,
      documents_url := documentsUrl gid,
      warnings := st.warnings, error := st.error_message }
  let stats := bumpStats ws.stats st.status st.files_rows.length
  { ws with
    guarantees := ws.guarantees ++ [row],
    attributes := ws.attributes ++ st.attributes_rows,
    files := ws.files ++ st.files_rows,
    processed := setAdd ws.processed gid,
    appended_log := ws.appended_log ++ [gid],
    stats := stats,
    save_html_count := st.save_html_count,
    retry := updateRetry ws.retry gid st.status a.max_retries,
    checkpoint := some { run_id, last_processed_id := gid, stats := stats } }

/-- One iteration of the `for index, guarantee_id in enumerate(ids, ...)`
loop of `_process_ids` (lines 143-378): the skip guard of lines 144-146,
then `processRecord`.  (The politeness sleeps of lines 372-378 have no
observable effect on the state.) -/
def processOne (a : Args) (run_id : Nat) (ws : WorkerState)
    (p : Int × IdEnv) : WorkerState :=
  if ws.processed.contains p.1 ∧ ¬a.force then ws
  else processRecord a run_id p.1 p.2 ws

/-- `_process_ids` over a worklist, each id paired with its external-world
environment (the persist-success path: every id's emission/persist block
succeeds; `processIdsExc` below is the same loop with that block's
uncaught fallibility explicit — the two agree whenever every persist step
succeeds). -/
def processIds (a : Args) (run_id : Nat) (pairs : List (Int × IdEnv))
    (ws : WorkerState) : WorkerState :=
  pairs.foldl (processOne a run_id) ws

/-- One iteration of the per-id loop with the fallibility of the
emission/persist block explicit: skip guard, guarded pipeline, then the
unguarded block of lines 321-362.  Its exception is not caught by the
handlers of lines 274-304, so it escapes the iteration; the error carries
the worker state at entry to the failing id (nothing later runs, so the
failing id's partially-buffered rows are unobservable). -/
def processOneExc (a : Args) (run_id : Nat) (ws : WorkerState)
    (p : Int × IdEnv) : Except (Exc × WorkerState) WorkerState :=
  if ws.processed.contains p.1 ∧ ¬a.force then .ok ws
  else
    match p.2.persist with
    | .error e => .error (e, ws)
    | .ok _ => .ok (processRecord a run_id p.1 p.2 ws)

/-- `_process_ids` with uncaught persist exceptions propagating: the loop
aborts at the first failing emission/persist block, leaving the rest of
the worklist unprocessed (the `finally` of line 384 only closes the
browser on the way out). -/
def processIdsExc (a : Args) (run_id : Nat) :
    List (Int × IdEnv) → WorkerState →
      Except (Exc × WorkerState) WorkerState
  | [], ws => .ok ws
  | p :: rest, ws =>
    match processOneExc a run_id ws p with
    | .error e => .error e
    | .ok ws2 => processIdsExc a run_id rest ws2

/-- `parse_ids` (`src/data/collect_eis_guarantees.py` lines 390-404), with
the three sources of the base id list (`--ids`, the start-to-end id range,
`DEFAULT_TEST_IDS`) collapsed into the already-selected `baseIds`. -/
def parse_ids (baseIds : List Int) (max_ids : Option Nat)
    (skip_retries : Bool) (retry_ids : List Int) : List Int :=
  let ids :=
    match max_ids with
    | some n => baseIds.take n
    | none => baseIds
  if ¬skip_retries ∧ retry_ids ≠ [] then
    retry_ids ++ ids.filter (fun i => ¬ retry_ids.contains i)
  else ids

/-- `retry_ids = [int(k) for k, v in retry_state.items() if v < args.max_retries]`
(`src/data/collect_eis_guarantees.py` line 545); the keys are the
program-written stringified ids, so `pyParseInt` succeeds on them. -/
def retryIdsOf (retry : RetryMap) (max_retries : Nat) : List Int :=
  retry.filterMap (fun kv =>
    if kv.2 < max_retries then pyParseInt kv.1 else none)

/-- The persisted run state across invocations: the `run_state.json`
counter, the processed-id log (as the set it loads back to), the retry
queue, and the checkpoint file. -/
structure InvState where
  last_run_id : Nat
  processed : List Int
  retry : RetryMap
  checkpoint : Option Checkpoint
deriving DecidableEq

/-- Rows emitted by one invocation. -/
structure InvOutputs where
  guarantees : List GuaranteeRow
  attributes : List AttrRow
  files : List FileRow
deriving DecidableEq

/-- The worklist one invocation processes: `parse_ids` applied to the
retry-eligible ids of the loaded retry state (`main`, lines 544-547). -/
def invocationWorklist (a : Args) (baseIds : List Int) (retry : RetryMap) :
    List Int :=
  parse_ids baseIds a.max_ids a.skip_retries (retryIdsOf retry a.max_retries)

/-- One invocation of `main` (`src/data/collect_eis_guarantees.py` lines
514-611) on the single-worker path: load retry state, build the worklist,
return untouched when it is empty (before `next_run_id`), otherwise draw a
fresh run id, run `_process_ids`, and persist the updated retry state. -/
def runInvocation (a : Args) (baseIds : List Int) (envs : Int → IdEnv)
    (s : InvState) : InvState × InvOutputs :=
  let ids := invocationWorklist a baseIds s.retry
  if ids = [] then (s, { guarantees := [], attributes := [], files := [] })
  else
    let (run_id, counter) := next_run_id s.last_run_id
    let ws0 : WorkerState :=
      { processed := s.processed, retry := s.retry, appended_log := [],
        checkpoint := s.checkpoint, stats := {}, save_html_count := 0,
        guarantees := [], attributes := [], files := [] }
    let ws := processIds a run_id (ids.map (fun i => (i, envs i))) ws0
    ({ last_run_id := counter, processed := ws.processed, retry := ws.retry,
       checkpoint := ws.checkpoint },
     { guarantees := ws.guarantees, attributes := ws.attributes,
       files := ws.files })

/-! ## Helper lemmas -/

theorem dictGet_dictPop (m : RetryMap) (k : String) :
    dictGet (dictPop m k) k = none := by
  induction m with
  | nil => rfl
  | cons kv rest ih =>
    by_cases h : kv.1 = k
    · rw [show dictPop (kv :: rest) k = dictPop rest k by simp [dictPop, h]]
      exact ih
    · simp [dictPop, dictGet, h, ih]

theorem dictGet_dictSet (m : RetryMap) (k : String) (v : Nat) :
    dictGet (dictSet m k v) k = some v := by
  unfold dictSet
  by_cases hs : (dictGet m k).isSome
  · simp only [if_pos hs]
    induction m with
    | nil => simp [dictGet] at hs
    | cons kv rest ih =>
      by_cases h : kv.1 = k
      · simp [dictGet, h]
      · simp only [dictGet, h, if_neg] at hs
        simpa [dictGet, h] using ih hs
  · simp only [if_neg hs]
    induction m with
    | nil => simp [dictGet]
    | cons kv rest ih =>
      by_cases h : kv.1 = k
      · simp [dictGet, h] at hs
      · simp only [dictGet, h, if_neg] at hs
        simpa [dictGet, h] using ih hs

/-- `k` consecutive per-ID state updates for the same id, each with the same
failing status, starting from a retry state without that id (the situation
of an id that fails on every attempt). -/
def retryAfterFailures (gid : Int) (status : Status) (max_retries : Nat) :
    Nat → RetryMap
  | 0 => []
  | k + 1 =>
    updateRetry (retryAfterFailures gid status max_retries k) gid status
      max_retries

theorem retryAfterFailures_eq (gid : Int) (status : Status)
    (max_retries : Nat)
    (hfail : status = .ERROR ∨ status = .PARTIAL ∨ status = .TIMEOUT) :
    ∀ k, k ≤ max_retries →
      retryAfterFailures gid status max_retries k
        = if 1 ≤ k ∧ k < max_retries then [(toString gid, k)] else [] := by
  intro k
  induction k with
  | zero => intro _; simp [retryAfterFailures]
  | succ k ih =>
    intro hk
    have hk' : k ≤ max_retries := Nat.le_of_succ_le hk
    rw [retryAfterFailures, ih hk']
    by_cases h1 : 1 ≤ k ∧ k < max_retries
    · rw [if_pos h1]
      unfold updateRetry
      rw [if_pos hfail]
      simp only [dictGet, eq_self_iff_true, if_true, Option.getD_some]
      by_cases h2 : k + 1 < max_retries
      · rw [if_pos h2, if_pos ⟨Nat.le_add_left 1 k, h2⟩]
        simp [dictSet, dictGet]
      · rw [if_neg h2, if_neg (fun hc => h2 hc.2)]
        simp [dictPop]
    · rw [if_neg h1]
      have hk0 : k = 0 := by omega
      subst hk0
      unfold updateRetry
      rw [if_pos hfail]
      simp only [dictGet, Option.getD_none]
      by_cases h2 : 0 + 1 < max_retries
      · rw [if_pos h2, if_pos ⟨le_refl 1, by omega⟩]
        simp [dictSet, dictGet]
      · rw [if_neg h2, if_neg (by omega)]
        simp [dictPop]

/-- C5: after the per-ID retry-state update (lines 345-352 of
`src/data/collect_eis_guarantees.py`): an `OK`/`MISSING` outcome removes
the id's entry; an `ERROR`/`PARTIAL`/`TIMEOUT` outcome increments the
attempt count and keeps the entry exactly while the incremented count is
below `max_retries`; and an id failing on every attempt is present with
count `k` after `k < max_retries` failures and absent from the `max_retries`-th
failure on. -/
theorem C5_retry_state_update :
    (∀ (retry : RetryMap) (gid : Int) (status : Status) (max_retries : Nat),
      status = .OK ∨ status = .MISSING →
      dictGet (updateRetry retry gid status max_retries) (toString gid)
        = none)
    ∧ (∀ (retry : RetryMap) (gid : Int) (status : Status) (max_retries : Nat),
      status = .ERROR ∨ status = .PARTIAL ∨ status = .TIMEOUT →
      dictGet (updateRetry retry gid status max_retries) (toString gid)
        = (if (dictGet retry (toString gid)).getD 0 + 1 < max_retries then
            some ((dictGet retry (toString gid)).getD 0 + 1)
          else none))
    ∧ (∀ (gid : Int) (status : Status) (max_retries : Nat),
      status = .ERROR ∨ status = .PARTIAL ∨ status = .TIMEOUT →
      ∀ k, k ≤ max_retries →
        dictGet (retryAfterFailures gid status max_retries k) (toString gid)
          = if 1 ≤ k ∧ k < max_retries then some k else none) := by
  refine ⟨?_, ?_, ?_⟩
  · intro retry gid status max_retries hok
    unfold updateRetry
    rw [if_neg (by rcases hok with h | h <;> subst h <;> simp)]
    exact dictGet_dictPop _ _
  · intro retry gid status max_retries hfail
    unfold updateRetry
    rw [if_pos hfail]
    by_cases h2 : (dictGet retry (toString gid)).getD 0 + 1 < max_retries
    · rw [if_pos h2, if_pos h2]
      exact dictGet_dictSet _ _ _
    · rw [if_neg h2, if_neg h2]
      exact dictGet_dictPop _ _
  · intro gid status max_retries hfail k hk
    rw [retryAfterFailures_eq gid status max_retries hfail k hk]
    by_cases h1 : 1 ≤ k ∧ k < max_retries
    · rw [if_pos h1, if_pos h1]
      simp [dictGet]
    · rw [if_neg h1, if_neg h1]
      rfl

/-- Witness for C5 at `max_retries = 3`: an `OK` outcome clears an entry
with one recorded attempt, a failure increments `1` to `2`, and an id that
fails on every attempt is present with count 2 after 2 failures and gone
after the 3rd. -/
theorem C5_retry_state_update_witness :
    dictGet (updateRetry [("5", 1)] 5 .OK 3) "5" = none
    ∧ dictGet (updateRetry [("5", 1)] 5 .ERROR 3) "5" = some 2
    ∧ dictGet (retryAfterFailures 5 .ERROR 3 2) "5" = some 2
    ∧ dictGet (retryAfterFailures 5 .ERROR 3 3) "5" = none := by
  refine ⟨C5_retry_state_update.1 [("5", 1)] 5 .OK 3 (Or.inl rfl), ?_, ?_, ?_⟩
  · have h := C5_retry_state_update.2.1 [("5", 1)] 5 .ERROR 3 (Or.inl rfl)
    exact h.trans (by decide)
  · have h := C5_retry_state_update.2.2 5 .ERROR 3 (Or.inl rfl) 2 (by decide)
    exact h.trans (by decide)
  · have h := C5_retry_state_update.2.2 5 .ERROR 3 (Or.inl rfl) 3 (by decide)
    exact h.trans (by decide)

/-- Membership in the Python-set model. -/
theorem mem_setAdd (s : List Int) (m n : Int) :
    n ∈ setAdd s m ↔ n ∈ s ∨ n = m := by
  unfold setAdd
  by_cases h : s.contains m
  · rw [if_pos h]
    constructor
    · exact Or.inl
    · rintro (hs | rfl)
      · exact hs
      · exact List.mem_of_elem_eq_true h
  · rw [if_neg h]
    simp

theorem load_processed_ids_foldl (lines : List String) (acc : List Int)
    (n : Int) :
    (n ∈ lines.foldl
      (fun acc line =>
        let line := pyStrip line
        if line = "" then acc
        else
          match pyParseInt line with
          | some m => setAdd acc m
          | none => acc)
      acc)
    ↔ n ∈ acc ∨ ∃ line ∈ lines, pyStrip line ≠ ""
        ∧ pyParseInt (pyStrip line) = some n := by
  induction lines generalizing acc with
  | nil => simp
  | cons l rest ih =>
    rw [List.foldl_cons, ih]
    by_cases hb : pyStrip l = ""
    · simp only [hb, if_pos rfl]
      constructor
      · rintro (h | h)
        · exact Or.inl h
        · exact Or.inr (by
            obtain ⟨line, hl, hne, hp⟩ := h
            exact ⟨line, List.mem_cons_of_mem _ hl, hne, hp⟩)
      · rintro (h | ⟨line, hl, hne, hp⟩)
        · exact Or.inl h
        · rcases List.mem_cons.mp hl with rfl | hl2
          · exact absurd hb hne
          · exact Or.inr ⟨line, hl2, hne, hp⟩
    · simp only [if_neg hb]
      rcases hp : pyParseInt (pyStrip l) with _ | m
      · constructor
        · rintro (h | ⟨line, hl, hne, hq⟩)
          · exact Or.inl h
          · exact Or.inr ⟨line, List.mem_cons_of_mem _ hl, hne, hq⟩
        · rintro (h | ⟨line, hl, hne, hq⟩)
          · exact Or.inl h
          · rcases List.mem_cons.mp hl with rfl | hl2
            · rw [hp] at hq; exact absurd hq (by simp)
            · exact Or.inr ⟨line, hl2, hne, hq⟩
      · rw [mem_setAdd]
        constructor
        · rintro ((h | rfl) | ⟨line, hl, hne, hq⟩)
          · exact Or.inl h
          · exact Or.inr ⟨l, List.mem_cons_self _ _, hb, hp⟩
          · exact Or.inr ⟨line, List.mem_cons_of_mem _ hl, hne, hq⟩
        · rintro (h | ⟨line, hl, hne, hq⟩)
          · exact Or.inl (Or.inl h)
          · rcases List.mem_cons.mp hl with rfl | hl2
            · rw [hp] at hq
              exact Or.inl (Or.inr (Option.some_injective _ hq).symm)
            · exact Or.inr ⟨line, hl2, hne, hq⟩

/-- C10: `load_processed_ids` is total on arbitrary file contents: a
missing file yields the empty set, and otherwise the result contains
exactly the integer values of those lines whose stripped text is non-blank
and parses as an integer — blank and unparseable lines are skipped (the
`except ValueError: continue` of `src/data/eis/storage.py` lines 57-60)
instead of raising. -/
theorem C10_load_processed_ids_total :
    load_processed_ids none = []
    ∧ ∀ (content : String) (n : Int),
        n ∈ load_processed_ids (some content)
          ↔ ∃ line ∈ splitLines content, pyStrip line ≠ ""
              ∧ pyParseInt (pyStrip line) = some n := by
  refine ⟨rfl, ?_⟩
  intro content n
  unfold load_processed_ids
  rw [load_processed_ids_foldl]
  simp

/-- Witness for C10 on a file mixing valid ids, blanks, and garbage lines:
`17` (from a padded line) is loaded, and nothing is loaded from the
unparseable line `"x9"`. -/
theorem C10_load_processed_ids_total_witness :
    ((17 : Int) ∈ load_processed_ids (some "4\n\n 17 \nx9\n"))
    ∧ ¬ ∃ line ∈ splitLines "4\n\n 17 \nx9\n", pyStrip line ≠ ""
        ∧ pyParseInt (pyStrip line) = some (9 : Int) := by
  constructor
  · exact (C10_load_processed_ids_total.2 "4\n\n 17 \nx9\n" 17).mpr
      ⟨" 17 ", by decide, by decide, by decide⟩
  · intro hex
    have h := (C10_load_processed_ids_total.2 "4\n\n 17 \nx9\n" 9).mpr hex
    revert h
    decide

theorem downloadOne_fields (force : Bool) (run_id : Nat) (gid : Int)
    (index : Nat) (item : Attachment) (aenv : AttachmentEnv) :
    (downloadOne force run_id gid index item aenv).file_index = index
    ∧ (downloadOne force run_id gid index item aenv).original_filename
        = pyStrip item.original_filename
    ∧ (downloadOne force run_id gid index item aenv).download_url
        = pyStrip item.download_url := by
  unfold downloadOne
  dsimp only
  split
  · exact ⟨rfl, rfl, rfl⟩
  · split
    · exact ⟨rfl, rfl, rfl⟩
    · rcases aenv.waitDownloadedName with _ | dname
      · exact ⟨rfl, rfl, rfl⟩
      · dsimp only
        split
        · exact ⟨rfl, rfl, rfl⟩
        · exact ⟨rfl, rfl, rfl⟩

theorem downloadAll_getElem (force : Bool) (run_id : Nat) (gid : Int)
    (env : Nat → AttachmentEnv) :
    ∀ (attachments : List Attachment) (start i : Nat),
      (downloadAll force run_id gid env start attachments)[i]?
        = (attachments[i]?).map
            (fun item => downloadOne force run_id gid (start + i) item
              (env (start + i))) := by
  intro attachments
  induction attachments with
  | nil => intro start i; simp [downloadAll]
  | cons item rest ih =>
    intro start i
    match i with
    | 0 => simp [downloadAll]
    | i + 1 =>
      rw [downloadAll]
      simp only [List.getElem?_cons_succ, ih (start + 1) i]
      have harith : start + 1 + i = start + (i + 1) := by omega
      rw [harith]

theorem downloadAll_length (force : Bool) (run_id : Nat) (gid : Int)
    (env : Nat → AttachmentEnv) :
    ∀ (attachments : List Attachment) (start : Nat),
      (downloadAll force run_id gid env start attachments).length
        = attachments.length := by
  intro attachments
  induction attachments with
  | nil => intro start; rfl
  | cons item rest ih =>
    intro start
    rw [downloadAll]
    simp [ih (start + 1)]

/-- C2: `download_attachments` returns exactly one `FileRecord` per input
attachment, in document order — the row at position `i` carries
`file_index = i + 1` and the provenance fields of the `i`-th input
attachment — regardless of the per-attachment outcome supplied by the
environment. -/
theorem C2_one_file_row_per_attachment (force : Bool) (run_id : Nat)
    (gid : Int) (attachments : List Attachment) (env : Nat → AttachmentEnv) :
    (download_attachments force run_id gid attachments env).length
      = attachments.length
    ∧ ∀ i item, attachments[i]? = some item →
        ∃ row,
          (download_attachments force run_id gid attachments env)[i]?
              = some row
          ∧ row.file_index = i + 1
          ∧ row.original_filename = pyStrip item.original_filename
          ∧ row.download_url = pyStrip item.download_url := by
  constructor
  · exact downloadAll_length force run_id gid env attachments 1
  · intro i item hitem
    refine ⟨downloadOne force run_id gid (1 + i) item (env (1 + i)), ?_, ?_⟩
    · rw [download_attachments, downloadAll_getElem, hitem]
      rfl
    · have h := downloadOne_fields force run_id gid (1 + i) item (env (1 + i))
      exact ⟨by rw [h.1]; omega, h.2.1, h.2.2⟩

/-- The two-attachment input list of the C2 witness. -/
def c2WitnessAtts : List Attachment :=
  [{ download_url := "u1", original_filename := "a.pdf",
     document_index := 1, document_number := "" },
   { download_url := " u2 ", original_filename := " b.pdf ",
     document_index := 1, document_number := "" }]

/-- The per-attachment world of the C2 witness: the first attachment
downloads, the second stalls. -/
def c2WitnessEnv (i : Nat) : AttachmentEnv :=
  { storedExists := false, existingPageCount := 0, existingSha := "",
    immediateError := "", movedPageCount := 3, movedSha := "h",
    storedMissingAfterMove := false,
    waitDownloadedName := if i = 1 then some "dl.pdf" else none,
    waitError := if i = 1 then "" else "FAILED_STALLED" }

/-- Witness for C2: a two-attachment list produces exactly two rows, and
the second row carries `file_index = 2` with the second attachment's
stripped original filename, whatever the download outcomes were (here: one
success, one stall). -/
theorem C2_one_file_row_per_attachment_witness :
    (download_attachments false 1 5 c2WitnessAtts c2WitnessEnv).length = 2
    ∧ ∃ row,
        (download_attachments false 1 5 c2WitnessAtts c2WitnessEnv)[1]?
            = some row
        ∧ row.file_index = 2 ∧ row.original_filename = "b.pdf" := by
  constructor
  · exact (C2_one_file_row_per_attachment false 1 5 c2WitnessAtts
      c2WitnessEnv).1
  · obtain ⟨row, h1, h2, h3, _⟩ :=
      (C2_one_file_row_per_attachment false 1 5 c2WitnessAtts
        c2WitnessEnv).2 1
        { download_url := " u2 ", original_filename := " b.pdf ",
          document_index := 1, document_number := "" } rfl
    exact ⟨row, h1, h2, h3.trans (by decide)⟩

/-- C9: when the completion protocol reports a downloaded file but after
the move the stored file is absent or empty
(`src/data/eis/downloader.py` lines 304-322), the emitted row has
`download_status = "FAILED_MISSING"`, empty `stored_filename`,
`stored_path` and `sha256`, `page_count = 0`, and the loop goes on with
the remaining attachments of the same record at the next index. -/
theorem C9_failed_missing_row (force : Bool) (run_id : Nat) (gid : Int)
    (index : Nat) (item : Attachment) (rest : List Attachment)
    (env : Nat → AttachmentEnv) (dname : String)
    (hskip : ¬((env index).storedExists ∧ ¬force))
    (herr : (env index).immediateError = "")
    (hname : (env index).waitDownloadedName = some dname)
    (hmiss : (env index).storedMissingAfterMove = true) :
    downloadAll force run_id gid env index (item :: rest)
      = { run_id, id := gid, file_index := index, stored_filename := "",
          stored_path := "",
          original_filename := pyStrip item.original_filename,
          download_url := pyStrip item.download_url,
          document_index := item.document_index,
          document_number := item.document_number, page_count := 0,
          mime_type := "", download_status := "FAILED_MISSING",
          sha256 := "" }
        :: downloadAll force run_id gid env (index + 1) rest := by
  rw [downloadAll]
  congr 1
  unfold downloadOne
  rw [if_neg (by simpa using hskip), if_neg (by simp [herr]), hname]
  dsimp only
  rw [if_pos hmiss]

/-- Witness for C9: a concrete moved-then-missing attachment yields the
`FAILED_MISSING` row followed by the processing of the remaining
attachment. -/
theorem C9_failed_missing_row_witness :
    downloadAll false 1 5
      (fun _ =>
        { storedExists := false, existingPageCount := 0, existingSha := "",
          immediateError := "", movedPageCount := 3, movedSha := "h",
          storedMissingAfterMove := true,
          waitDownloadedName := some "dl.pdf", waitError := "" })
      1
      [{ download_url := "u1", original_filename := "a.pdf",
         document_index := 1, document_number := "" },
       { download_url := "u2", original_filename := "b.pdf",
         document_index := 1, document_number := "" }]
      = { run_id := 1, id := 5, file_index := 1, stored_filename := "",
          stored_path := "", original_filename := "a.pdf",
          download_url := "u1", document_index := 1, document_number := "",
          page_count := 0, mime_type := "",
          download_status := "FAILED_MISSING", sha256 := "" }
        :: downloadAll false 1 5
          (fun _ =>
            { storedExists := false, existingPageCount := 0,
              existingSha := "", immediateError := "", movedPageCount := 3,
              movedSha := "h", storedMissingAfterMove := true,
              waitDownloadedName := some "dl.pdf", waitError := "" })
          2
          [{ download_url := "u2", original_filename := "b.pdf",
             document_index := 1, document_number := "" }] := by
  have h := C9_failed_missing_row false 1 5 1
    { download_url := "u1", original_filename := "a.pdf",
      document_index := 1, document_number := "" }
    [{ download_url := "u2", original_filename := "b.pdf",
       document_index := 1, document_number := "" }]
    (fun _ =>
      { storedExists := false, existingPageCount := 0, existingSha := "",
        immediateError := "", movedPageCount := 3, movedSha := "h",
        storedMissingAfterMove := true,
        waitDownloadedName := some "dl.pdf", waitError := "" })
    "dl.pdf" (by simp) rfl rfl rfl
  exact h.trans (by decide)

theorem is_missing_page_ne_empty {g : String}
    (h : is_missing_page g = true) : g ≠ "" := by
  intro he
  subst he
  revert h
  decide

theorem pipeline_missing_eq (a : Args) (run_id : Nat) (gid : Int)
    (env : IdEnv) (cnt : Nat) (ghtml : String)
    (hfetch : (if a.offlineMode then env.loadGeneralSample
               else env.fetchGeneral) = .ok ghtml)
    (hmiss : is_missing_page ghtml = true)
    (hsnap : env.saveSnapshots = .ok ()) :
    runPipeline a run_id gid env cnt
      = { status := .MISSING, general_html := ghtml,
          save_html_count := cnt + 1 } := by
  have hne : ghtml ≠ "" := is_missing_page_ne_empty hmiss
  unfold runPipeline tryBody
  by_cases hm : a.offlineMode
  · rw [if_pos hm] at hfetch
    rw [if_pos hm]
    unfold offlineGeneralPhase
    rw [hfetch]
    simp only [stepThen, hmiss, if_neg hne, if_true]
    unfold offlineDocsPhase snapshotPhase applyExcHandler classifyFilesRows
    unfold okErrorDowngrade
    simp [hsnap, hne, stepThen]
  · rw [if_neg hm] at hfetch
    rw [if_neg hm]
    unfold liveGeneralPhase
    rw [hfetch]
    simp only [stepThen, hmiss, if_true]
    unfold liveDocsPhase snapshotPhase applyExcHandler classifyFilesRows
    unfold okErrorDowngrade
    simp [hsnap, hne, stepThen]

/-- C1: when `is_missing_page` classifies the fetched primary page as
missing (and the world raises no exception at the primary fetch or the
snapshot write — exceptions are the higher-precedence rules of the
classification), the per-ID processing ends with status `MISSING`, the
secondary (document-info) page is never fetched, and the id emits one
`MISSING` guarantee row with zero attribute rows and zero file rows. -/
theorem C1_missing_primary_short_circuits (a : Args) (run_id : Nat)
    (gid : Int) (env : IdEnv) (ws : WorkerState) (ghtml : String)
    (hfetch : (if a.offlineMode then env.loadGeneralSample
               else env.fetchGeneral) = .ok ghtml)
    (hmiss : is_missing_page ghtml = true)
    (hsnap : env.saveSnapshots = .ok ()) :
    (runPipeline a run_id gid env ws.save_html_count).status = .MISSING
    ∧ (runPipeline a run_id gid env ws.save_html_count).fetched_documents
        = false
    ∧ (runPipeline a run_id gid env ws.save_html_count).attributes_rows = []
    ∧ (runPipeline a run_id gid env ws.save_html_count).files_rows = []
    ∧ (processRecord a run_id gid env ws).guarantees
        = ws.guarantees
          ++ [{ run_id, id := gid, status := .MISSING,
                general_url := generalInfoUrl gid,
                documents_url := documentsUrl gid, warnings := [],
                error := "" }]
    ∧ (processRecord a run_id gid env ws).attributes = ws.attributes
    ∧ (processRecord a run_id gid env ws).files = ws.files := by
  have hp := pipeline_missing_eq a run_id gid env ws.save_html_count ghtml
    hfetch hmiss hsnap
  refine ⟨by rw [hp], by rw [hp], by rw [hp], by rw [hp], ?_, ?_, ?_⟩
  · unfold processRecord
    rw [hp]
  · unfold processRecord
    rw [hp]
    simp
  · unfold processRecord
    rw [hp]
    simp

/-- A primary page containing the registry's missing-record phrase. -/
def missingHtml : String :=
  "<html>Запрашиваемая страница не существует</html>"

/-- An attachment used by concrete witnesses. -/
def attSample : Attachment :=
  { download_url := "u1", original_filename := "doc.pdf",
    document_index := 1, document_number := "N1" }

/-- A successful download world for `attSample`. -/
def aenvDownloadOk : AttachmentEnv :=
  { storedExists := false, existingPageCount := 0, existingSha := "",
    immediateError := "", waitDownloadedName := some "dl.pdf",
    waitError := "", storedMissingAfterMove := false, movedPageCount := 4,
    movedSha := "abc" }

/-- Default live-mode arguments for concrete witnesses. -/
def argsLive : Args :=
  { offlineMode := false, force := false, save_html := false,
    save_html_first_n := 10, skip_retries := false, max_retries := 3,
    per_id_timeout := 30, max_ids := none }

/-- A world whose primary page is the missing-record page. -/
def envMissing : IdEnv :=
  { loadGeneralSample := .ok missingHtml,
    loadDocumentsSample := .ok "<docs>",
    fetchGeneral := .ok missingHtml, waitGeneralSelectors := .ok (),
    fetchDocuments := .ok "<docs>", waitDocumentsSelectors := .ok (),
    parseGeneral := fun _ => .ok ([("s", [("f", "v")])], []),
    parseDocInfo := fun _ => .ok ([attSample], [], []),
    runDownload := fun _ =>
      .ok [downloadOne false 1 5 1 attSample aenvDownloadOk],
    saveSnapshots := .ok (), persist := .ok () }

/-- An all-zero worker state at the start of a run. -/
def wsInit : WorkerState :=
  { processed := [], retry := [], appended_log := [], checkpoint := none,
    stats := {}, save_html_count := 0, guarantees := [], attributes := [],
    files := [] }

/-- Witness for C1: the concrete missing-record page yields status
`MISSING`, no secondary fetch, and no attribute or file rows. -/
theorem C1_missing_primary_short_circuits_witness :
    (runPipeline argsLive 1 5 envMissing wsInit.save_html_count).status
        = .MISSING
    ∧ (runPipeline argsLive 1 5 envMissing
        wsInit.save_html_count).fetched_documents = false
    ∧ (runPipeline argsLive 1 5 envMissing
        wsInit.save_html_count).attributes_rows = []
    ∧ (runPipeline argsLive 1 5 envMissing
        wsInit.save_html_count).files_rows = []
    ∧ (processRecord argsLive 1 5 envMissing wsInit).attributes = [] := by
  have h := C1_missing_primary_short_circuits argsLive 1 5 envMissing wsInit
    missingHtml rfl (by decide) rfl
  exact ⟨h.1, h.2.1, h.2.2.1, h.2.2.2.1, h.2.2.2.2.2.1⟩

theorem classifyFilesRows_error_message (st : St) :
    (classifyFilesRows st).error_message = st.error_message := by
  unfold classifyFilesRows
  dsimp only
  split_ifs <;> rfl

theorem okErrorDowngrade_error_message (st : St) :
    (okErrorDowngrade st).error_message = st.error_message := by
  unfold okErrorDowngrade
  split_ifs <;> rfl

theorem okErrorDowngrade_warnings (st : St) :
    (okErrorDowngrade st).warnings = st.warnings := by
  unfold okErrorDowngrade
  split_ifs <;> rfl

theorem classifyFilesRows_status_error (st : St)
    (h : st.status = .ERROR) : (classifyFilesRows st).status = .ERROR := by
  unfold classifyFilesRows
  dsimp only
  split_ifs <;> simp_all

theorem classifyFilesRows_status_timeout (st : St)
    (h : st.status = .TIMEOUT) :
    (classifyFilesRows st).status = .TIMEOUT
    ∨ (classifyFilesRows st).status = .ERROR := by
  unfold classifyFilesRows
  dsimp only
  split_ifs <;> simp_all

theorem okErrorDowngrade_status_ne_ok (st : St) (h : st.status ≠ .OK) :
    (okErrorDowngrade st).status = st.status := by
  unfold okErrorDowngrade
  split_ifs with hc
  · exact absurd hc.1 h
  · rfl

theorem classifyFilesRows_warnings_mem (st : St) (x : String)
    (h : x ∈ st.warnings) : x ∈ (classifyFilesRows st).warnings := by
  unfold classifyFilesRows
  dsimp only
  split_ifs <;> simp_all

/-- A bridge between the two worker loops: when every id's
emission/persist block succeeds, the exception-explicit loop computes the
same final state as the persist-success-path loop. -/
theorem processIdsExc_ok_of_persist_ok (a : Args) (run_id : Nat) :
    ∀ (pairs : List (Int × IdEnv)) (ws : WorkerState),
      (∀ p ∈ pairs, p.2.persist = .ok ()) →
      processIdsExc a run_id pairs ws = .ok (processIds a run_id pairs ws) := by
  intro pairs
  induction pairs with
  | nil => intro ws _; rfl
  | cons p rest ih =>
    intro ws hok
    have hp := hok p (List.mem_cons_self p rest)
    rw [processIdsExc]
    unfold processOneExc
    by_cases hskip : ws.processed.contains p.1 ∧ ¬a.force
    · rw [if_pos hskip]
      show processIdsExc a run_id rest ws = _
      rw [ih ws (fun q hq => hok q (List.mem_cons_of_mem p hq))]
      show _ = .ok (processIds a run_id rest (processOne a run_id ws p))
      rw [show processOne a run_id ws p = ws by
        unfold processOne; rw [if_pos hskip]]
    · rw [if_neg hskip, hp]
      show processIdsExc a run_id rest (processRecord a run_id p.1 p.2 ws)
        = _
      rw [ih _ (fun q hq => hok q (List.mem_cons_of_mem p hq))]
      show _ = .ok (processIds a run_id rest (processOne a run_id ws p))
      rw [show processOne a run_id ws p = processRecord a run_id p.1 p.2 ws
        by unfold processOne; rw [if_neg hskip]]

/-- A world whose primary-page fetch raises a generic browser exception;
its emission/persist block succeeds. -/
def envBoom : IdEnv :=
  { envMissing with
    fetchGeneral := .error (.other "invalid session id"),
    loadGeneralSample := .error (.other "invalid session id") }

/-- A world whose guarded phase succeeds (missing primary page) but whose
emission/persist block raises — e.g. a parquet flush hitting a full
disk. -/
def envPersistBoom : IdEnv :=
  { envMissing with
    persist := .error (.other "disk full: parquet flush failed") }

/-- Like `envBoom`, but the emission/persist block also fails. -/
def envBoomPersistBoom : IdEnv :=
  { envBoom with
    persist := .error (.other "disk full: parquet flush failed") }

/-- C8 counterexample: a per-ID failure that does terminate the worker.
The guarded phase of id 5 completes (its page is simply missing), but its
emission/persist block — which sits after the `except` handlers — raises;
the exception escapes `_process_ids`, so the worker aborts instead of
continuing, and id 6 is never processed: the loop reaches no final
worker state at all. -/
theorem C8_counterexample_persist_exception_kills_worker :
    processIdsExc argsLive 1 [(5, envPersistBoom), (6, envMissing)] wsInit
        = .error (.other "disk full: parquet flush failed", wsInit)
    ∧ ∀ ws2 : WorkerState,
        processIdsExc argsLive 1 [(5, envPersistBoom), (6, envMissing)]
          wsInit ≠ .ok ws2 := by
  refine ⟨rfl, ?_⟩
  intro ws2 hc
  rw [show processIdsExc argsLive 1 [(5, envPersistBoom), (6, envMissing)]
      wsInit
      = .error (.other "disk full: parquet flush failed", wsInit)
    from rfl] at hc
  exact Except.noConfusion hc

/-- C8 as amended: exceptions raised inside the guarded `try` body of the
per-id loop (fetch, extract, download, snapshot — lines 162-272) are
caught by the handlers of lines 274-304: the id ends in a terminal
`ERROR` or `TIMEOUT` classification, a non-timeout exception as `ERROR`
with `str(exc)` captured, the deadline exception converted by its handler
to `TIMEOUT` with the timeout message and the exception text recorded as
a warning; when the emission/persist block then succeeds, the id's one
guarantee row is emitted and the worker continues with the rest of its
worklist.  The emission/persist block itself (lines 321-362), however,
lies outside the `try`/`except`: an exception there is not caught and
aborts the worker's loop. -/
theorem C8_amended_guarded_exceptions_contained (a : Args) (run_id : Nat)
    (gid : Int) (env : IdEnv) (ws : WorkerState)
    (hrun : ¬(ws.processed.contains gid ∧ ¬a.force)) :
    (∀ (st' : St) (e : Exc),
      tryBody a run_id gid env { save_html_count := ws.save_html_count }
          = (st', some e) →
      ((runPipeline a run_id gid env ws.save_html_count).status = .ERROR
        ∨ (runPipeline a run_id gid env ws.save_html_count).status
            = .TIMEOUT)
      ∧ (∀ msg, e = .other msg →
          (runPipeline a run_id gid env ws.save_html_count).status = .ERROR
          ∧ (runPipeline a run_id gid env ws.save_html_count).error_message
              = msg)
      ∧ (∀ msg, e = .procTimeout msg →
          (applyExcHandler a (st', some e)).status = .TIMEOUT
          ∧ (runPipeline a run_id gid env ws.save_html_count).error_message
              = timeoutMessage a.per_id_timeout
          ∧ msg ∈ (runPipeline a run_id gid env ws.save_html_count).warnings))
    ∧ (env.persist = .ok () →
        processOneExc a run_id ws (gid, env)
          = .ok (processRecord a run_id gid env ws)
        ∧ (processRecord a run_id gid env ws).guarantees.length
            = ws.guarantees.length + 1
        ∧ ∀ rest : List (Int × IdEnv),
            processIdsExc a run_id ((gid, env) :: rest) ws
              = processIdsExc a run_id rest (processRecord a run_id gid env ws))
    ∧ (∀ e2 : Exc, env.persist = .error e2 →
        processOneExc a run_id ws (gid, env) = .error (e2, ws)
        ∧ ∀ rest : List (Int × IdEnv),
            processIdsExc a run_id ((gid, env) :: rest) ws
              = .error (e2, ws)) := by
  refine ⟨?_, ?_, ?_⟩
  · intro st' e h
    have hpipe : runPipeline a run_id gid env ws.save_html_count
        = okErrorDowngrade (classifyFilesRows (applyExcHandler a
            (st', some e))) := by
      unfold runPipeline
      rw [h]
    refine ⟨?_, ?_, ?_⟩
    · rw [hpipe]
      cases e with
      | procTimeout msg =>
        have hh : (applyExcHandler a (st', some (.procTimeout msg))).status
            = .TIMEOUT := rfl
        rcases classifyFilesRows_status_timeout _ hh with ht | he
        · refine Or.inr ?_
          rw [okErrorDowngrade_status_ne_ok _
            (by rw [ht]; intro hc; cases hc), ht]
        · refine Or.inl ?_
          rw [okErrorDowngrade_status_ne_ok _
            (by rw [he]; intro hc; cases hc), he]
      | other msg =>
        have hh : (applyExcHandler a (st', some (.other msg))).status
            = .ERROR := rfl
        have he := classifyFilesRows_status_error _ hh
        refine Or.inl ?_
        rw [okErrorDowngrade_status_ne_ok _
          (by rw [he]; intro hc; cases hc), he]
    · rintro msg rfl
      rw [hpipe]
      have hh : (applyExcHandler a (st', some (.other msg))).status
          = .ERROR := rfl
      have he := classifyFilesRows_status_error _ hh
      refine ⟨?_, ?_⟩
      · rw [okErrorDowngrade_status_ne_ok _
          (by rw [he]; intro hc; cases hc), he]
      · rw [okErrorDowngrade_error_message, classifyFilesRows_error_message]
        rfl
    · rintro msg rfl
      refine ⟨rfl, ?_, ?_⟩
      · rw [hpipe, okErrorDowngrade_error_message,
          classifyFilesRows_error_message]
        rfl
      · rw [hpipe, okErrorDowngrade_warnings]
        refine classifyFilesRows_warnings_mem _ _ ?_
        show msg ∈ st'.warnings ++ [msg]
        simp
  · intro hok
    have hone : processOneExc a run_id ws (gid, env)
        = .ok (processRecord a run_id gid env ws) := by
      unfold processOneExc
      rw [if_neg hrun]
      show (match env.persist with
        | .error e => Except.error (e, ws)
        | .ok _ => Except.ok (processRecord a run_id gid env ws)) = _
      rw [hok]
    refine ⟨hone, by unfold processRecord; simp, ?_⟩
    intro rest
    rw [processIdsExc, hone]
  · intro e2 herr
    have hone : processOneExc a run_id ws (gid, env) = .error (e2, ws) := by
      unfold processOneExc
      rw [if_neg hrun]
      show (match env.persist with
        | .error e => Except.error (e, ws)
        | .ok _ => Except.ok (processRecord a run_id gid env ws)) = _
      rw [herr]
    refine ⟨hone, ?_⟩
    intro rest
    rw [processIdsExc, hone]

/-- Witness for the amended C8: a concrete browser exception at the
primary fetch ends as status `ERROR` with the exception text captured and
the worker continues (its persist block succeeded); the same exception
with a failing persist block aborts the worker loop. -/
theorem C8_amended_guarded_exceptions_contained_witness :
    (runPipeline argsLive 1 5 envBoom wsInit.save_html_count).status
        = .ERROR
    ∧ (runPipeline argsLive 1 5 envBoom
        wsInit.save_html_count).error_message = "invalid session id"
    ∧ processOneExc argsLive 1 wsInit (5, envBoom)
        = .ok (processRecord argsLive 1 5 envBoom wsInit)
    ∧ processOneExc argsLive 1 wsInit (5, envBoomPersistBoom)
        = .error (.other "disk full: parquet flush failed", wsInit) := by
  have h1 := C8_amended_guarded_exceptions_contained argsLive 1 5 envBoom
    wsInit (by decide)
  have h2 := C8_amended_guarded_exceptions_contained argsLive 1 5
    envBoomPersistBoom wsInit (by decide)
  obtain ⟨hs, he⟩ := (h1.1 { save_html_count := wsInit.save_html_count }
    (.other "invalid session id") rfl).2.1 "invalid session id" rfl
  exact ⟨hs, he, (h1.2.1 rfl).1,
    (h2.2.2 (.other "disk full: parquet flush failed") rfl).1⟩

/-- A file row whose download attempt timed out (`FAILED_TIMEOUT`). -/
def failedRowSample : FileRow :=
  downloadOne false 1 5 1 attSample
    { aenvDownloadOk with waitDownloadedName := none }

/-- A successfully downloaded file row. -/
def okRowSample : FileRow :=
  downloadOne false 1 5 2 attSample aenvDownloadOk

/-- A live world where both pages parse, the single attachment's download
fails, and the `SIGALRM` deadline exception fires during the snapshot
write — after the file rows were already produced. -/
def envLateTimeout : IdEnv :=
  { envMissing with
    fetchGeneral := .ok "<general>",
    runDownload := fun _ => .ok [failedRowSample],
    saveSnapshots := .error (.procTimeout "Per-ID processing timed out") }

/-- Like `envLateTimeout`, but only one of two produced file rows failed. -/
def envLatePartial : IdEnv :=
  { envLateTimeout with
    runDownload := fun _ => .ok [failedRowSample, okRowSample] }

/-- C3 counterexample: the deadline exception is raised (after the file
rows were produced), its handler classifies the id as `TIMEOUT`, yet the
failed-attachment rule of lines 306-317 — contrary to the claimed
precedence — overwrites that earlier `TIMEOUT` classification with
`ERROR`, because every produced file row failed. -/
theorem C3_counterexample_timeout_not_short_circuiting :
    (tryBody argsLive 1 5 envLateTimeout { save_html_count := 0 }).2
        = some (.procTimeout "Per-ID processing timed out")
    ∧ (applyExcHandler argsLive
        (tryBody argsLive 1 5 envLateTimeout
          { save_html_count := 0 })).status = .TIMEOUT
    ∧ (runPipeline argsLive 1 5 envLateTimeout 0).files_rows ≠ []
    ∧ (∀ row ∈ (runPipeline argsLive 1 5 envLateTimeout 0).files_rows,
        isFailedRow row = true)
    ∧ (runPipeline argsLive 1 5 envLateTimeout 0).status = .ERROR
    ∧ (runPipeline argsLive 1 5 envLateTimeout 0).status ≠ .TIMEOUT := by
  refine ⟨rfl, rfl, by decide, by decide, rfl, by decide⟩

theorem classify_downgrade_cases (st : St) (hne : st.files_rows ≠ []) :
    ((st.files_rows.filter isFailedRow).length = st.files_rows.length →
      (okErrorDowngrade (classifyFilesRows st)).status = .ERROR)
    ∧ (st.files_rows.filter isFailedRow ≠ [] →
       (st.files_rows.filter isFailedRow).length ≠ st.files_rows.length →
       (okErrorDowngrade (classifyFilesRows st)).status
         = if st.status = .OK then .PARTIAL else st.status)
    ∧ (st.files_rows.filter isFailedRow ≠ [] →
       attachmentFailuresMessage
           (st.files_rows.filter isFailedRow).length st.files_rows.length
         ∈ (okErrorDowngrade (classifyFilesRows st)).warnings) := by
  have hfne : (st.files_rows.filter isFailedRow).length
      = st.files_rows.length → st.files_rows.filter isFailedRow ≠ [] := by
    intro hlen hnil
    rw [hnil] at hlen
    exact hne (List.length_eq_zero.mp hlen.symm)
  refine ⟨?_, ?_, ?_⟩
  · intro hall
    unfold classifyFilesRows okErrorDowngrade
    dsimp only
    split_ifs <;> simp_all
  · intro hsome hnotall
    unfold classifyFilesRows okErrorDowngrade
    dsimp only
    split_ifs <;> simp_all
  · intro hsome
    unfold classifyFilesRows okErrorDowngrade
    dsimp only
    split_ifs <;> simp_all

/-- C3 as amended: the failed-attachment reclassification runs after the
exception handlers on the rows that were produced; when every produced
file row failed it escalates the status to `ERROR` *regardless* of the
already-assigned classification (in particular it overrides `TIMEOUT`);
when some but not all rows failed the status becomes `PARTIAL` only when
it is currently `OK` (an earlier `ERROR`, `TIMEOUT`, `PARTIAL` or
`MISSING` is preserved); in either case a warning records the
failed/total ratio. -/
theorem C3_amended_failed_files_reclassification (a : Args) (run_id : Nat)
    (gid : Int) (env : IdEnv) (cnt : Nat) :
    ((applyExcHandler a (tryBody a run_id gid env
        { save_html_count := cnt })).files_rows ≠ [] →
      (((applyExcHandler a (tryBody a run_id gid env
            { save_html_count := cnt })).files_rows.filter
              isFailedRow).length
          = (applyExcHandler a (tryBody a run_id gid env
              { save_html_count := cnt })).files_rows.length →
        (runPipeline a run_id gid env cnt).status = .ERROR)
      ∧ ((applyExcHandler a (tryBody a run_id gid env
            { save_html_count := cnt })).files_rows.filter isFailedRow ≠ []
          →
         ((applyExcHandler a (tryBody a run_id gid env
             { save_html_count := cnt })).files_rows.filter
               isFailedRow).length
           ≠ (applyExcHandler a (tryBody a run_id gid env
               { save_html_count := cnt })).files_rows.length →
         (runPipeline a run_id gid env cnt).status
           = if (applyExcHandler a (tryBody a run_id gid env
                 { save_html_count := cnt })).status = .OK then .PARTIAL
             else (applyExcHandler a (tryBody a run_id gid env
                 { save_html_count := cnt })).status)
      ∧ ((applyExcHandler a (tryBody a run_id gid env
            { save_html_count := cnt })).files_rows.filter isFailedRow ≠ []
          →
         attachmentFailuresMessage
             ((applyExcHandler a (tryBody a run_id gid env
                 { save_html_count := cnt })).files_rows.filter
                   isFailedRow).length
             (applyExcHandler a (tryBody a run_id gid env
                 { save_html_count := cnt })).files_rows.length
           ∈ (runPipeline a run_id gid env cnt).warnings)) := by
  intro hne
  exact classify_downgrade_cases
    (applyExcHandler a (tryBody a run_id gid env { save_html_count := cnt }))
    hne

/-- Witness for the amended C3: with one failed and one successful file
row and the deadline exception raised late, the id keeps its `TIMEOUT`
classification (not `PARTIAL`), and the 1/2 failure warning is
recorded. -/
theorem C3_amended_failed_files_reclassification_witness :
    (runPipeline argsLive 1 5 envLatePartial 0).status = .TIMEOUT
    ∧ attachmentFailuresMessage 1 2
        ∈ (runPipeline argsLive 1 5 envLatePartial 0).warnings := by
  have h := C3_amended_failed_files_reclassification argsLive 1 5
    envLatePartial 0 (by decide)
  refine ⟨(h.2.1 (by decide) (by decide)).trans (by decide), ?_⟩
  have hw := h.2.2 (by decide)
  exact (by decide : attachmentFailuresMessage 1 2
    = attachmentFailuresMessage
        ((applyExcHandler argsLive (tryBody argsLive 1 5 envLatePartial
            { save_html_count := 0 })).files_rows.filter isFailedRow).length
        (applyExcHandler argsLive (tryBody argsLive 1 5 envLatePartial
            { save_html_count := 0 })).files_rows.length) ▸ hw

theorem processIds_all_skipped (a : Args) (run_id : Nat)
    (pairs : List (Int × IdEnv)) (ws : WorkerState)
    (hforce : a.force = false)
    (hproc : ∀ p ∈ pairs, p.1 ∈ ws.processed) :
    processIds a run_id pairs ws = ws := by
  induction pairs with
  | nil => rfl
  | cons p rest ih =>
    have hskip : processOne a run_id ws p = ws := by
      unfold processOne
      rw [if_pos]
      refine ⟨?_, ?_⟩
      · simpa using hproc p (List.mem_cons_self p rest)
      · simp [hforce]
    show processIds a run_id rest (processOne a run_id ws p) = ws
    rw [hskip]
    exact ih (fun q hq => hproc q (List.mem_cons_of_mem p hq))

/-- C6 as amended: re-running a non-empty worklist whose every id is
already in the processed set with an empty retry state and `force=false`
processes zero ids — it emits no guarantee, attribute or file rows, and
leaves the processed-id log, the retry map and the checkpoint untouched —
but the persisted run counter is still incremented once by `next_run_id`,
so the run-counter file does change. -/
theorem C6_amended_idempotent_rerun (a : Args) (baseIds : List Int)
    (envs : Int → IdEnv) (s : InvState)
    (hforce : a.force = false)
    (hretry : s.retry = [])
    (hproc : ∀ i ∈ invocationWorklist a baseIds s.retry, i ∈ s.processed)
    (hne : invocationWorklist a baseIds s.retry ≠ []) :
    (runInvocation a baseIds envs s).2.guarantees = []
    ∧ (runInvocation a baseIds envs s).2.attributes = []
    ∧ (runInvocation a baseIds envs s).2.files = []
    ∧ (runInvocation a baseIds envs s).1.processed = s.processed
    ∧ (runInvocation a baseIds envs s).1.retry = s.retry
    ∧ (runInvocation a baseIds envs s).1.checkpoint = s.checkpoint
    ∧ (runInvocation a baseIds envs s).1.last_run_id
        = s.last_run_id + 1 := by
  have hws := processIds_all_skipped a (s.last_run_id + 1)
    ((invocationWorklist a baseIds s.retry).map (fun i => (i, envs i)))
    { processed := s.processed, retry := s.retry, appended_log := [],
      checkpoint := s.checkpoint, stats := {}, save_html_count := 0,
      guarantees := [], attributes := [], files := [] }
    hforce
    (by
      intro p hp
      obtain ⟨i, hi, rfl⟩ := List.mem_map.mp hp
      exact hproc i hi)
  unfold runInvocation
  rw [if_neg hne]
  unfold next_run_id
  dsimp only
  rw [hws]
  simp

/-- The persisted state of the C6 counterexample: run counter at 7, ids 1
and 2 already processed, empty retry queue. -/
def stateC6 : InvState :=
  { last_run_id := 7, processed := [1, 2], retry := [], checkpoint := none }

/-- C6 counterexample: re-running worklist `[1, 2]` over `stateC6` with
`force=false` processes zero ids and emits nothing, yet the persisted run
counter changes from 7 to 8 (`next_run_id` increments it on every
invocation with a non-empty worklist), so the persisted state is *not*
unchanged as the claim states. -/
theorem C6_counterexample_run_counter_advances :
    (runInvocation argsLive [1, 2] (fun _ => envMissing)
        stateC6).2.guarantees = []
    ∧ (runInvocation argsLive [1, 2] (fun _ => envMissing)
        stateC6).1.processed = stateC6.processed
    ∧ (runInvocation argsLive [1, 2] (fun _ => envMissing)
        stateC6).1.retry = stateC6.retry
    ∧ (runInvocation argsLive [1, 2] (fun _ => envMissing)
        stateC6).1.checkpoint = stateC6.checkpoint
    ∧ (runInvocation argsLive [1, 2] (fun _ => envMissing)
        stateC6).1.last_run_id ≠ stateC6.last_run_id := by
  refine ⟨rfl, rfl, rfl, rfl, by decide⟩

/-- Witness for the amended C6: re-running worklist `[1, 2]` over
`stateC6` emits nothing, keeps the processed set and checkpoint, and
advances the run counter from 7 to 8. -/
theorem C6_amended_idempotent_rerun_witness :
    (runInvocation argsLive [1, 2] (fun _ => envMissing)
        stateC6).2.guarantees = []
    ∧ (runInvocation argsLive [1, 2] (fun _ => envMissing)
        stateC6).1.processed = stateC6.processed
    ∧ (runInvocation argsLive [1, 2] (fun _ => envMissing)
        stateC6).1.last_run_id = 8 := by
  have h := C6_amended_idempotent_rerun argsLive [1, 2]
    (fun _ => envMissing) stateC6 rfl rfl (by decide) (by decide)
  exact ⟨h.1, h.2.2.2.1, h.2.2.2.2.2.2⟩

/-- The persisted state of the C4 failing input: id 5 was processed in an
earlier run with a failing status, so it sits both in the processed-id log
and in the retry queue with one recorded attempt (below
`max_retries = 3`). -/
def stateC4 : InvState :=
  { last_run_id := 7, processed := [5], retry := [("5", 1)],
    checkpoint := none }

/-- C4 failing input, evaluated: id 5 is retry-eligible (1 < 3 attempts)
and `parse_ids` does put it at the front of the worklist — but the skip
guard of `_process_ids` (lines 144-146) sees it in the processed-id set
and, with `force=false`, skips it: the invocation emits no guarantee row
for it and even leaves its retry entry in place forever.  The claimed
re-processing never happens. -/
theorem C4_retry_id_prioritized_but_skipped :
    retryIdsOf stateC4.retry argsLive.max_retries = [5]
    ∧ invocationWorklist argsLive [] stateC4.retry = [5]
    ∧ (runInvocation argsLive [] (fun _ => envMissing)
        stateC4).2.guarantees = []
    ∧ (runInvocation argsLive [] (fun _ => envMissing)
        stateC4).1.retry = [("5", 1)]
    ∧ (runInvocation argsLive [] (fun _ => envMissing)
        stateC4).1.last_run_id = 8 := by
  refine ⟨by decide, by decide, rfl, rfl, rfl⟩

/-- A download directory that constantly shows exactly one file, with no
browser-side error marker. -/
def constFileEnv (f : FileInfo) : WaitEnv :=
  { listing := fun _ => [f], errorAt := fun _ => "" }

/-- A download directory where nothing ever appears. -/
def emptyDirEnv : WaitEnv :=
  { listing := fun _ => [], errorAt := fun _ => "" }

theorem updateProgress_const (t : Nat) (f : FileInfo)
    (prog : String → Option PEntry)
    (hprog : prog f.name = some ⟨(f.size : Int), 0⟩) :
    updateProgress t [f] prog = prog := by
  unfold updateProgress
  simp [hprog]

theorem waitLoop_empty_dir (before : List String) (stable stall : Nat)
    (prog : String → Option PEntry) :
    ∀ fuel t, waitLoop emptyDirEnv before stable stall prog t fuel
      = .timedOut := by
  intro fuel
  induction fuel with
  | zero => intro t; rfl
  | succ fuel ih =>
    intro t
    rw [waitLoop]
    simp only [emptyDirEnv, ne_eq, not_true_eq_false, if_false,
      List.filter_nil, updateProgress, List.foldl_nil, maxByMtime]
    exact ih (t + 1)

theorem waitLoop_stable_found (f : FileInfo) (before : List String)
    (stable stall : Nat)
    (hbefore : before.contains f.name = false)
    (hcr : isCrdownload f.name = false) :
    ∀ (fuel t : Nat) (prog : String → Option PEntry),
      prog f.name = some ⟨(f.size : Int), 0⟩ →
      t ≤ stable → stable < t + fuel →
      waitLoop (constFileEnv f) before stable stall prog t fuel
        = .found f.name := by
  intro fuel
  induction fuel with
  | zero =>
    intro t prog _ h1 h2
    omega
  | succ fuel ih =>
    intro t prog hprog h1 h2
    have hup := updateProgress_const t f prog hprog
    have hb2 : ¬ (f.name ∈ before) := by simpa using hbefore
    by_cases hs : stable ≤ t
    · simp [waitLoop, constFileEnv, hb2, hcr, hup, hprog, maxByMtime, hs]
    · simp only [waitLoop, constFileEnv, ne_eq]
      simp [hb2, hcr, hup, hprog, maxByMtime, hs]
      show waitLoop (constFileEnv f) before stable stall prog (t + 1) fuel
        = WaitOutcome.found f.name
      exact ih (t + 1) prog hprog (by omega) (by omega)

theorem waitLoop_stall_stalled (f : FileInfo) (before : List String)
    (stable stall : Nat)
    (hbefore : before.contains f.name = false)
    (hcr : isCrdownload f.name = true) :
    ∀ (fuel t : Nat) (prog : String → Option PEntry),
      prog f.name = some ⟨(f.size : Int), 0⟩ →
      t ≤ stall → stall < t + fuel →
      waitLoop (constFileEnv f) before stable stall prog t fuel
        = .stalled f.name := by
  intro fuel
  induction fuel with
  | zero =>
    intro t prog _ h1 h2
    omega
  | succ fuel ih =>
    intro t prog hprog h1 h2
    have hup := updateProgress_const t f prog hprog
    have hb2 : ¬ (f.name ∈ before) := by simpa using hbefore
    by_cases hs : stall ≤ t
    · simp [waitLoop, constFileEnv, hb2, hcr, hup, hprog, maxByMtime, hs]
    · simp only [waitLoop, constFileEnv, ne_eq]
      simp [hb2, hcr, hup, hprog, maxByMtime, hs]
      show waitLoop (constFileEnv f) before stable stall prog (t + 1) fuel
        = WaitOutcome.stalled f.name
      exact ih (t + 1) prog hprog (by omega) (by omega)

/-- C7: the completion protocol of `_wait_for_download_result`, polling
once per second until the timeout: (i) a new completed file (no
`.crdownload` extension) whose size never changes is returned as success
once the stability window has passed; (ii) a new in-progress
(`.crdownload`) file whose size never changes is deleted — the `stalled`
outcome names the unlinked file — and the attempt fails as
`FAILED_STALLED` once the stall window has passed; (iii) with no
resolution by the deadline, the attempt fails as `FAILED_TIMEOUT`. -/
theorem C7_completion_protocol :
    (∀ (f : FileInfo) (before : List String) (timeout stable stall : Nat),
      before.contains f.name = false → isCrdownload f.name = false →
      stable < timeout →
      wait_for_download_result (constFileEnv f) before timeout stable stall
        = .found f.name)
    ∧ (∀ (f : FileInfo) (before : List String) (timeout stable stall : Nat),
      before.contains f.name = false → isCrdownload f.name = true →
      stall < timeout →
      wait_for_download_result (constFileEnv f) before timeout stable stall
        = .stalled f.name)
    ∧ (∀ (before : List String) (timeout stable stall : Nat),
      wait_for_download_result emptyDirEnv before timeout stable stall
        = .timedOut) := by
  have hfirst : ∀ (f : FileInfo) (t : Nat),
      updateProgress t [f] (fun _ => none)
        = fun x => if x = f.name then some ⟨(f.size : Int), t⟩ else none := by
    intro f t
    unfold updateProgress
    have hsz : (f.size : Int) ≠ (-1 : Int) := by omega
    simp [hsz]
  refine ⟨?_, ?_, ?_⟩
  · intro f before timeout stable stall hbefore hcr hlt
    unfold wait_for_download_result
    cases timeout with
    | zero => omega
    | succ fuel =>
      have hb2 : ¬ (f.name ∈ before) := by simpa using hbefore
      by_cases hs : stable ≤ 0
      · simp [waitLoop, constFileEnv, hb2, hcr, hfirst f 0, maxByMtime, hs]
      · simp only [waitLoop, constFileEnv, ne_eq]
        simp [hb2, hcr, hfirst f 0, maxByMtime, hs]
        show waitLoop (constFileEnv f) before stable stall
            (fun x => if x = f.name then some ⟨(f.size : Int), 0⟩ else none)
            1 fuel = WaitOutcome.found f.name
        exact waitLoop_stable_found f before stable stall hbefore hcr fuel 1
          (fun x => if x = f.name then some ⟨(f.size : Int), 0⟩ else none)
          (by simp) (by omega) (by omega)
  · intro f before timeout stable stall hbefore hcr hlt
    unfold wait_for_download_result
    cases timeout with
    | zero => omega
    | succ fuel =>
      have hb2 : ¬ (f.name ∈ before) := by simpa using hbefore
      by_cases hs : stall ≤ 0
      · simp [waitLoop, constFileEnv, hb2, hcr, hfirst f 0, maxByMtime, hs]
      · simp only [waitLoop, constFileEnv, ne_eq]
        simp [hb2, hcr, hfirst f 0, maxByMtime, hs]
        show waitLoop (constFileEnv f) before stable stall
            (fun x => if x = f.name then some ⟨(f.size : Int), 0⟩ else none)
            1 fuel = WaitOutcome.stalled f.name
        exact waitLoop_stall_stalled f before stable stall hbefore hcr fuel 1
          (fun x => if x = f.name then some ⟨(f.size : Int), 0⟩ else none)
          (by simp) (by omega) (by omega)
  · intro before timeout stable stall
    exact waitLoop_empty_dir before stable stall (fun _ => none) timeout 0

/-- Witness for C7: with the default 3 s stability window a constant
100-byte `r.pdf` is returned as success within a 10 s timeout; a constant
`r.pdf.crdownload` is deleted and reported stalled once the default 120 s
stall window passes inside a 130 s timeout; and an empty directory times
out after 5 s. -/
theorem C7_completion_protocol_witness :
    wait_for_download_result (constFileEnv ⟨"r.pdf", 100, 7⟩) [] 10 3 120
        = .found "r.pdf"
    ∧ wait_for_download_result (constFileEnv ⟨"r.pdf.crdownload", 50, 7⟩)
        [] 130 3 120 = .stalled "r.pdf.crdownload"
    ∧ wait_for_download_result emptyDirEnv [] 5 3 120 = .timedOut := by
  exact ⟨C7_completion_protocol.1 ⟨"r.pdf", 100, 7⟩ [] 10 3 120
      (by decide) (by decide) (by decide),
    C7_completion_protocol.2.1 ⟨"r.pdf.crdownload", 50, 7⟩ [] 130 3 120
      (by decide) (by decide) (by decide),
    C7_completion_protocol.2.2 [] 5 3 120⟩

end EIS
